import Mathlib

/-!
Shallow embedding of `src/i2cslave/targets/pipistrello_i2c.py`, the clock and
reset infrastructure of the i2cslave Pipistrello SoC target: the two CSR
peripherals (`Clock` and `GPIOInOut`), and the `_CRG` clocking module
(frequency solver, power-on reset counter, PLL output tap configuration).
Registered state is modelled by explicit state passing, one record update per
core-clock edge; combinational signals are ordinary functions of the current
state.
-/

set_option maxRecDepth 8000

/- ## BitClockPeripheral (`Clock`, source lines 27-45) -/

/-- The compile-time divider of the `Clock` peripheral,
`ratio = int(83.3e6 // 100e3 // 2)`.  Both Python floor divisions act on
floats that represent these integers exactly, so they coincide with
natural-number division. -/
def ratio : ℕ := 83300000 / 100000 / 2

/-- Registered state of the `Clock` module: the free-running `counter`, the
toggled output `sample` (driven combinationally onto the pad by
`self.comb += pad.eq(sample)`), and the CSR status register `_r.status`. -/
structure ClockState where
  counter : ℕ
  sample : Bool
  status : Bool

/-- One core-clock edge of the `Clock` module's `self.sync` block:
`status <= sample`, and `if counter == ratio then counter <= 0,
sample <= ~sample else counter <= counter + 1`. -/
def clockStep (s : ClockState) : ClockState :=
  if s.counter = ratio then
    { counter := 0, sample := !s.sample, status := s.sample }
  else
    { counter := s.counter + 1, sample := s.sample, status := s.sample }

/-- The trace of the `Clock` module from controller reset; all three
registers reset to zero (the migen default reset value). -/
def clockRun : ℕ → ClockState
  | 0 => { counter := 0, sample := false, status := false }
  | n + 1 => clockStep (clockRun n)

/- ## BidirectionalPinPeripheral (`GPIOInOut`, source lines 48-64) -/

/-- The stored value of the 2-bit control register `_w = CSRStorage(2)`:
only the low two bits of a host write are kept. -/
def gpioStorage (v : ℕ) : ℕ := v % 4

/-- Combinational drive value, `self.value.eq(self._w.storage[0])`. -/
def gpioValue (storage : ℕ) : Bool := storage.testBit 0

/-- Combinational output enable, `self.oe.eq(self._w.storage[1])`. -/
def gpioOe (storage : ℕ) : Bool := storage.testBit 1

/-- Electrical level of a tri-state pad (the migen `Tristate` primitive):
driven to `o` while `oe` is set, otherwise floating, so its level is the
externally supplied one.  The input buffer `i` always reads this level. -/
def tristatePin (o oe ext : Bool) : Bool := if oe then o else ext

/-- The sampled pin level `self.r` of `GPIOInOut`, via
`Tristate(pad, self.value, self.oe, self.r)`. -/
def gpioPin (storage : ℕ) (ext : Bool) : Bool :=
  tristatePin (gpioValue storage) (gpioOe storage) ext

/-- The CSR status register, `self._r.status.eq(self.r)` (combinational). -/
def gpioStatus (storage : ℕ) (ext : Bool) : Bool := gpioPin storage ext

/- ## FrequencySolver (`_CRG.__init__`, source lines 77-82) -/

/-- The default system clock frequency of `BaseSoC`,
`clk_freq = (83 + Fraction(1, 3))*1000*1000`. -/
def clkFreqDefault : ℚ := (83 + 1 / 3) * 1000 * 1000

/-- Feedback multiplier `N`: the numerator of
`f = Fraction(clk_freq * p, f0)`, i.e. of `(targetHz * p) / referenceHz`
reduced to lowest terms.  The source fixes `referenceHz = f0 = 50 MHz` and
`p = 12`; the solver is stated over them as parameters. -/
def freqSolverN (referenceHz targetHz : ℚ) (p : ℕ) : ℤ :=
  (targetHz * (p : ℚ) / referenceHz).num

/-- Input divider `D`: the denominator of `Fraction(clk_freq * p, f0)`. -/
def freqSolverD (referenceHz targetHz : ℚ) (p : ℕ) : ℕ :=
  (targetHz * (p : ℚ) / referenceHz).den

/-- Elaboration of the solver result, guarded by the two range assertions
`assert 19e6 <= f0/d <= 500e6` (phase detector) and
`assert 400e6 <= f0*n/d <= 1080e6` (VCO): a failed assertion aborts
elaboration, so no parameters are produced. -/
def crgElaborate (referenceHz targetHz : ℚ) (p : ℕ) : Option (ℤ × ℕ) :=
  if (19 * 10 ^ 6 ≤ referenceHz / (freqSolverD referenceHz targetHz p : ℚ) ∧
        referenceHz / (freqSolverD referenceHz targetHz p : ℚ) ≤ 500 * 10 ^ 6) ∧
      (400 * 10 ^ 6 ≤ referenceHz * (freqSolverN referenceHz targetHz p : ℚ) /
          (freqSolverD referenceHz targetHz p : ℚ) ∧
        referenceHz * (freqSolverN referenceHz targetHz p : ℚ) /
          (freqSolverD referenceHz targetHz p : ℚ) ≤ 1080 * 10 ^ 6) then
    some (freqSolverN referenceHz targetHz p, freqSolverD referenceHz targetHz p)
  else
    none

/- ## ResetSequencer (`_CRG.__init__`, source lines 116-122) -/

/-- Reset value of the power-on counter, `por = Signal(max=1 << 11,
reset=(1 << 11) - 1)`. -/
def porMax : ℕ := 2 ^ 11 - 1

/-- The power-on counter trace, clocked by the `por` domain (same clock as
the system domain): `self.sync.por += If(por != 0, por.eq(por - 1))`. -/
def por : ℕ → ℕ
  | 0 => porMax
  | t + 1 => if por t ≠ 0 then por t - 1 else por t

/-- The qualified reset fed to the system domain's reset synchronizer,
`AsyncResetSynchronizer(self.cd_sys, ~pll_lckd | (por > 0))`, as a
combinational function of the lock trace and the cycle number. -/
def qualifiedReset (locked : ℕ → Bool) (t : ℕ) : Bool :=
  !(locked t) || decide (0 < por t)

/-- A lock trace that is high except on cycle `porMax` (the first cycle on
which the power-on counter has reached zero). -/
def lockedDropAtPorMax : ℕ → Bool := fun t => decide (t ≠ porMax)

/- ## PLL output taps (`_CRG.__init__`, source lines 94-133) -/

/-- Phase parameters `p_CLKOUT0_PHASE .. p_CLKOUT5_PHASE` of the `PLL_ADV`
instance, in tap order: `0., 0., 270., 250., 0., 0.`. -/
def pllPhase : Fin 6 → ℚ
  | 0 => 0
  | 1 => 0
  | 2 => 270
  | 3 => 250
  | 4 => 0
  | 5 => 0

/-- Divide parameters `p_CLKOUT0_DIVIDE .. p_CLKOUT5_DIVIDE` of the
`PLL_ADV` instance, in tap order: `p//4, p//4, p//2, p//2, p//1, p//1`. -/
def pllDivide (p : ℕ) : Fin 6 → ℕ
  | 0 => p / 4
  | 1 => p / 4
  | 2 => p / 2
  | 3 => p / 2
  | 4 => p / 1
  | 5 => p / 1

/-- The tap buffered onto the core-logic (system) domain clock,
`Instance("BUFG", i_I=pll[5], o_O=self.cd_sys.clk)`. -/
def sysClkTap : Fin 6 := 5

/-- The tap buffered onto the memory half-rate domain clock,
`Instance("BUFG", i_I=pll[2], o_O=self.cd_sdram_half.clk)`. -/
def sdramHalfTap : Fin 6 := 2

/- ## Helper lemmas -/

/-- The divider of the `Clock` peripheral evaluates to 416. -/
theorem ratio_eq : ratio = 416 := rfl

/-- Counter update of one `Clock` edge. -/
theorem clockStep_counter (s : ClockState) :
    (clockStep s).counter = if s.counter = ratio then 0 else s.counter + 1 := by
  rw [clockStep]
  split <;> rfl

/-- Output-level update of one `Clock` edge. -/
theorem clockStep_sample (s : ClockState) :
    (clockStep s).sample = if s.counter = ratio then !s.sample else s.sample := by
  rw [clockStep]
  split <;> rfl

/-- Status-register update of one `Clock` edge: the previous output level. -/
theorem clockStep_status (s : ClockState) : (clockStep s).status = s.sample := by
  rw [clockStep]
  split <;> rfl

/-- Closed form of the `Clock` trace: the counter runs modulo 417 and the
output level carries the parity of the completed 417-cycle periods. -/
theorem clockRun_closed (n : ℕ) :
    (clockRun n).counter = n % 417 ∧
      (clockRun n).sample = decide (n / 417 % 2 = 1) := by
  induction n with
  | zero => exact ⟨rfl, rfl⟩
  | succ n ih =>
    obtain ⟨hc, hs⟩ := ih
    have hstep : clockRun (n + 1) = clockStep (clockRun n) := rfl
    rw [hstep, clockStep_counter, clockStep_sample, hc, hs, ratio_eq]
    by_cases h : n % 417 = 416
    · simp only [if_pos h]
      refine ⟨by omega, ?_⟩
      rw [← decide_not]
      exact decide_eq_decide.mpr (by omega)
    · simp only [if_neg h]
      refine ⟨by omega, ?_⟩
      exact decide_eq_decide.mpr (by omega)

/-- The power-on counter counts down from `porMax` and freezes at zero. -/
theorem por_closed (t : ℕ) : por t = porMax - t := by
  induction t with
  | zero => rfl
  | succ t ih =>
    rw [por, ih]
    split <;> omega

/- ## Claim theorems -/

/-- C1: for every valid pair of exact rationals `(referenceHz, targetHz)`
and feedback multiplier `p`, the solver returns the numerator `N` and the
denominator `D` of `(targetHz * p) / referenceHz` in lowest terms, so that
`targetHz * p = referenceHz * N / D` holds exactly. -/
theorem freqSolver_exact (referenceHz targetHz : ℚ) (p : ℕ)
    (h : 0 < referenceHz) :
    targetHz * (p : ℚ) =
      referenceHz * (freqSolverN referenceHz targetHz p : ℚ) /
        (freqSolverD referenceHz targetHz p : ℚ) ∧
    (freqSolverN referenceHz targetHz p).natAbs.Coprime
      (freqSolverD referenceHz targetHz p) ∧
    0 < freqSolverD referenceHz targetHz p := by
  refine ⟨?_, (targetHz * (p : ℚ) / referenceHz).reduced,
    (targetHz * (p : ℚ) / referenceHz).pos⟩
  unfold freqSolverN freqSolverD
  rw [mul_div_assoc, Rat.num_div_den,
    mul_comm referenceHz (targetHz * (p : ℚ) / referenceHz),
    div_mul_cancel₀ _ (ne_of_gt h)]

/-- Witness for C1 at the reference configuration (50 MHz reference,
83.333... MHz target, p = 12). -/
theorem freqSolver_exact_witness :
    clkFreqDefault * ((12 : ℕ) : ℚ) =
      50000000 * (freqSolverN 50000000 clkFreqDefault 12 : ℚ) /
        (freqSolverD 50000000 clkFreqDefault 12 : ℚ) ∧
    (freqSolverN 50000000 clkFreqDefault 12).natAbs.Coprime
      (freqSolverD 50000000 clkFreqDefault 12) ∧
    0 < freqSolverD 50000000 clkFreqDefault 12 :=
  freqSolver_exact 50000000 clkFreqDefault 12 (by norm_num)

/-- C2: whenever the derived `N`, `D` put `referenceHz/D` outside
[19 MHz, 500 MHz] or `referenceHz*N/D` outside [400 MHz, 1080 MHz], the
range assertions fail and elaboration aborts: no PLL parameters are
produced. -/
theorem crg_rejects_range_violation (referenceHz targetHz : ℚ) (p : ℕ)
    (h : referenceHz / (freqSolverD referenceHz targetHz p : ℚ) < 19 * 10 ^ 6 ∨
      500 * 10 ^ 6 < referenceHz / (freqSolverD referenceHz targetHz p : ℚ) ∨
      referenceHz * (freqSolverN referenceHz targetHz p : ℚ) /
          (freqSolverD referenceHz targetHz p : ℚ) < 400 * 10 ^ 6 ∨
      1080 * 10 ^ 6 < referenceHz * (freqSolverN referenceHz targetHz p : ℚ) /
          (freqSolverD referenceHz targetHz p : ℚ)) :
    crgElaborate referenceHz targetHz p = none := by
  unfold crgElaborate
  rw [if_neg]
  rintro ⟨⟨h1, h2⟩, h3, h4⟩
  rcases h with h | h | h | h <;> linarith

/-- Witness for C2: a 2500/3 MHz target over a 50 MHz reference gives
N = 200, D = 1, whose VCO frequency 10 GHz exceeds 1080 MHz, and
elaboration rejects it. -/
theorem crg_rejects_range_violation_witness :
    crgElaborate 50000000 (2500000000 / 3) 12 = none := by
  have hq : (2500000000 / 3 : ℚ) * ((12 : ℕ) : ℚ) / 50000000 = 200 := by
    norm_num
  have hn : freqSolverN 50000000 (2500000000 / 3) 12 = 200 := by
    unfold freqSolverN
    rw [hq]
    simp
  have hd : freqSolverD 50000000 (2500000000 / 3) 12 = 1 := by
    unfold freqSolverD
    rw [hq]
    simp
  exact crg_rejects_range_violation 50000000 (2500000000 / 3) 12
    (by rw [hn, hd]; right; right; right; norm_num)

/-- C3 (amended): for every lock trace, the qualified reset is true for at
least the first `porMax` cycles; it is false exactly on the cycles where
the power-on counter has reached zero and the lock signal is currently
true; and it is true on every cycle where the lock signal is false, hence
within one cycle of any loss of lock. -/
theorem qualifiedReset_behavior (locked : ℕ → Bool) (t : ℕ) :
    (t < porMax → qualifiedReset locked t = true) ∧
    (qualifiedReset locked t = false ↔ porMax ≤ t ∧ locked t = true) ∧
    (locked t = false → qualifiedReset locked t = true) := by
  unfold qualifiedReset
  rw [por_closed]
  cases h : locked t
  · simp
  · simp

/-- Witness for C3 (amended) on the always-unlocked trace at cycles 0 and
`porMax`. -/
theorem qualifiedReset_behavior_witness :
    qualifiedReset (fun _ => false) 0 = true ∧
    qualifiedReset (fun _ => false) porMax = true :=
  ⟨(qualifiedReset_behavior (fun _ => false) 0).1 (by decide),
   (qualifiedReset_behavior (fun _ => false) porMax).2.2 rfl⟩

/-- C3 is false as stated: on the always-locked trace the qualified reset
is already false on cycle `porMax`, so it does not stay true for the first
`porMax + 1` cycles; and on a trace that drops lock exactly on cycle
`porMax` (the cycle the counter reaches zero), the qualified reset becomes
false on cycle `porMax + 1` although the lock has not been continuously
true since the counter reached zero. -/
theorem qualifiedReset_claim_counterexample :
    (¬ ∀ t, t ≤ porMax → qualifiedReset (fun _ => true) t = true) ∧
    por porMax = 0 ∧
    lockedDropAtPorMax porMax = false ∧
    qualifiedReset lockedDropAtPorMax porMax = true ∧
    qualifiedReset lockedDropAtPorMax (porMax + 1) = false := by
  refine ⟨?_, ?_, ?_, ?_, ?_⟩
  · intro h
    have h2 := h porMax le_rfl
    simp [qualifiedReset, por_closed] at h2
  · rw [por_closed]
    omega
  · simp [lockedDropAtPorMax]
  · simp [qualifiedReset, lockedDropAtPorMax]
  · simp [qualifiedReset, lockedDropAtPorMax, por_closed]

/-- C4: with the compile-time ratio 416, the counter sweeps 0..416
inclusive (running modulo 417), the output level toggles exactly on the
steps taken from a state with counter 416 — i.e. once every 417 cycles —
and the status register equals the output level (the pad value) delayed by
exactly one cycle. -/
theorem clock_toggle_and_status_delay (n : ℕ) :
    ratio = 416 ∧
    (clockRun n).counter = n % (ratio + 1) ∧
    ((clockRun (n + 1)).sample = !(clockRun n).sample ↔
      n % (ratio + 1) = ratio) ∧
    (clockRun (n + 1)).status = (clockRun n).sample := by
  refine ⟨rfl, (clockRun_closed n).1, ?_, ?_⟩
  · rw [(clockRun_closed (n + 1)).2, (clockRun_closed n).2, ← decide_not,
      ratio_eq]
    rw [decide_eq_decide]
    omega
  · rw [clockRun, clockStep]
    split <;> rfl

/-- C6 is false as stated: the counter is not confined to `[0, ratio)`; on
cycle 416 it reaches `ratio` itself. -/
theorem clock_counter_reaches_ratio :
    (clockRun 416).counter = ratio ∧ ¬ (clockRun 416).counter < ratio := by
  have h := (clockRun_closed 416).1
  rw [ratio_eq]
  rw [h]
  exact ⟨rfl, by omega⟩

/-- C6 (amended): in every reachable state the counter lies in
`[0, ratio]` inclusive, and both the counter and the output level are zero
at controller reset. -/
theorem clock_counter_range_and_reset (n : ℕ) :
    (clockRun n).counter ≤ ratio ∧
    (clockRun 0).counter = 0 ∧
    (clockRun 0).sample = false := by
  refine ⟨?_, rfl, rfl⟩
  rw [(clockRun_closed n).1, ratio_eq]
  omega

/-- C7 is false as stated: the divide parameter of tap 5 (the system
clock tap) with p = 12 is `p//1 = 12`, not 1. -/
theorem pll_sys_tap_divide_not_one : ¬ pllDivide 12 sysClkTap = 1 := by
  decide

/-- C7 (amended): with p = 12 the six PLL taps carry phases
(0, 0, 270, 250, 0, 0) in tap order; the core-logic domain clock is tap 5
with divide factor `p//1 = 12` and phase 0; the memory half-rate domain
clock is tap 2 with divide factor `p//2 = 6` and phase 270. -/
theorem pll_tap_configuration :
    pllPhase 0 = 0 ∧ pllPhase 1 = 0 ∧ pllPhase 2 = 270 ∧
    pllPhase 3 = 250 ∧ pllPhase 4 = 0 ∧ pllPhase 5 = 0 ∧
    sysClkTap = 5 ∧ pllDivide 12 sysClkTap = 12 ∧ pllPhase sysClkTap = 0 ∧
    sdramHalfTap = 2 ∧ pllDivide 12 sdramHalfTap = 6 ∧
    pllPhase sdramHalfTap = 270 :=
  ⟨rfl, rfl, rfl, rfl, rfl, rfl, rfl, rfl, rfl, rfl, rfl, rfl⟩

/-- C5: every host write to the 2-bit control register sets the drive
value from bit 0 and the output enable from bit 1; with the output enable
set the pin is driven to the drive value, with it clear the pin carries
the external level; and in both cases the status register equals the
pin's sampled level, combinationally. -/
theorem gpio_control_and_status (v : ℕ) (ext : Bool) :
    gpioValue (gpioStorage v) = v.testBit 0 ∧
    gpioOe (gpioStorage v) = v.testBit 1 ∧
    (gpioOe (gpioStorage v) = true →
      gpioPin (gpioStorage v) ext = gpioValue (gpioStorage v)) ∧
    (gpioOe (gpioStorage v) = false → gpioPin (gpioStorage v) ext = ext) ∧
    gpioStatus (gpioStorage v) ext = gpioPin (gpioStorage v) ext := by
  refine ⟨?_, ?_, ?_, ?_, rfl⟩
  · unfold gpioStorage gpioValue
    rw [show (4 : ℕ) = 2 ^ 2 from rfl, Nat.testBit_mod_two_pow]
    simp
  · unfold gpioStorage gpioOe
    rw [show (4 : ℕ) = 2 ^ 2 from rfl, Nat.testBit_mod_two_pow]
    simp
  · intro h
    unfold gpioPin tristatePin
    rw [h]
    simp
  · intro h
    unfold gpioPin tristatePin
    rw [h]
    simp

/-- Witness for C5: with control value 3 the pin is driven to the drive
bit; with control value 1 (drive bit set but output enable clear) the pin
carries the external level. -/
theorem gpio_control_and_status_witness :
    gpioPin (gpioStorage 3) false = gpioValue (gpioStorage 3) ∧
    gpioPin (gpioStorage 1) true = true :=
  ⟨(gpio_control_and_status 3 false).2.2.1 (by decide),
   (gpio_control_and_status 1 true).2.2.2.1 (by decide)⟩

/-- C8: with the output enable clear, the sampled status is a function of
the external pin level alone — any two control values with output enable
clear give the same status reading, whatever their drive bits. -/
theorem gpio_input_mode_no_host_influence (v1 v2 : ℕ) (ext : Bool)
    (h1 : gpioOe (gpioStorage v1) = false)
    (h2 : gpioOe (gpioStorage v2) = false) :
    gpioStatus (gpioStorage v1) ext = gpioStatus (gpioStorage v2) ext := by
  unfold gpioStatus gpioPin tristatePin
  rw [h1, h2]
  simp

/-- Witness for C8: control values 0 and 1 differ in the drive bit but
read the same (external) level. -/
theorem gpio_input_mode_no_host_influence_witness :
    gpioStatus (gpioStorage 0) true = gpioStatus (gpioStorage 1) true :=
  gpio_input_mode_no_host_influence 0 1 true (by decide) (by decide)

/-- C9: at the reference scenario (50 MHz reference, `clk_freq` default
83 + 1/3 MHz target, p = 12) the solver yields exactly N = 20, D = 1, and
both range assertions pass, so elaboration accepts the configuration. -/
theorem freqSolver_reference_scenario :
    freqSolverN 50000000 clkFreqDefault 12 = 20 ∧
    freqSolverD 50000000 clkFreqDefault 12 = 1 ∧
    crgElaborate 50000000 clkFreqDefault 12 = some (20, 1) := by
  have hq : clkFreqDefault * ((12 : ℕ) : ℚ) / 50000000 = 20 := by
    unfold clkFreqDefault
    norm_num
  have hn : freqSolverN 50000000 clkFreqDefault 12 = 20 := by
    unfold freqSolverN
    rw [hq]
    simp
  have hd : freqSolverD 50000000 clkFreqDefault 12 = 1 := by
    unfold freqSolverD
    rw [hq]
    simp
  refine ⟨hn, hd, ?_⟩
  unfold crgElaborate
  rw [hn, hd]
  norm_num

/-- C10: in every reachable state the counter never exceeds the ratio, the
output level inverts exactly on the steps taken with the counter at the
ratio (the counter then wrapping to zero), and on every other step the
output level is unchanged while the counter increments by one. -/
theorem clock_counter_bound_and_toggle_steps (n : ℕ) :
    (clockRun n).counter ≤ ratio ∧
    ((clockRun n).counter = ratio →
      (clockRun (n + 1)).sample = !(clockRun n).sample ∧
      (clockRun (n + 1)).counter = 0) ∧
    ((clockRun n).counter ≠ ratio →
      (clockRun (n + 1)).sample = (clockRun n).sample ∧
      (clockRun (n + 1)).counter = (clockRun n).counter + 1) := by
  refine ⟨?_, ?_, ?_⟩
  · rw [(clockRun_closed n).1, ratio_eq]
    omega
  · intro h
    rw [clockRun, clockStep, if_pos h]
    exact ⟨rfl, rfl⟩
  · intro h
    rw [clockRun, clockStep, if_neg h]
    exact ⟨rfl, rfl⟩

/-- Witness for C10 at the toggle step (cycle 416) and at an ordinary
step (cycle 0). -/
theorem clock_counter_bound_and_toggle_steps_witness :
    ((clockRun 417).sample = !(clockRun 416).sample ∧
      (clockRun 417).counter = 0) ∧
    ((clockRun 1).sample = (clockRun 0).sample ∧
      (clockRun 1).counter = (clockRun 0).counter + 1) :=
  ⟨(clock_counter_bound_and_toggle_steps 416).2.1
      ((clockRun_closed 416).1.trans (by decide)),
   (clock_counter_bound_and_toggle_steps 0).2.2 (by decide)⟩
